import Mathlib

/-!
Verification of the nvshader Cache Registry & Eviction/Prewarm Engine.

The repository ships the public C interface `include/nvshader.h`; the
engine behind it (Classifier, Scanner, Registry, Aggregator, Eviction
Engine, Validator, Prewarm Orchestrator) is specified in the design
document.  The data shapes and result codes below are translated from the
header; the operations are modelled from the specification, as noted on
each definition.
-/

namespace NvShader

/-- Cache type enumeration, translated from `nvshader_cache_type_t` in
`include/nvshader.h` (DXVK=0, VKD3D=1, NVIDIA=2, MESA=3, FOSSILIZE=4). -/
inductive CacheType where
  | dxvk
  | vkd3d
  | nvidia
  | mesa
  | fossilize
deriving DecidableEq, Repr

/-- Numeric value of each `nvshader_cache_type_t` constant, from the header. -/
def cacheTypeCode : CacheType → Nat
  | .dxvk => 0
  | .vkd3d => 1
  | .nvidia => 2
  | .mesa => 3
  | .fossilize => 4

/-- Result codes, translated from `nvshader_result_t` in `include/nvshader.h`. -/
inductive ResultCode where
  | success
  | error_invalid_handle
  | error_scan_failed
  | error_prewarm_failed
  | error_not_available
  | error_game_not_found
  | error_invalid_param
  | error_out_of_memory
  | error_unknown
deriving DecidableEq, Repr

/-- Numeric value of each `nvshader_result_t` constant, from the header. -/
def resultCode : ResultCode → Int
  | .success => 0
  | .error_invalid_handle => -1
  | .error_scan_failed => -2
  | .error_prewarm_failed => -3
  | .error_not_available => -4
  | .error_game_not_found => -5
  | .error_invalid_param => -6
  | .error_out_of_memory => -7
  | .error_unknown => -99

/-- A Cache Entry, translated from `nvshader_entry_t` in `include/nvshader.h`
together with the spec's data model: `game_name`/`game_id` may be unresolved
(modelled as `Option`), and `last_modified` is the filesystem timestamp (in
seconds) the spec adds for age computations. -/
structure Entry where
  path : String
  cache_type : CacheType
  size_bytes : Nat
  game_name : Option String
  game_id : Option String
  entry_count : Nat
  is_directory : Bool
  last_modified : Nat
deriving DecidableEq, Repr

/-- Cache statistics, translated from `nvshader_stats_t` in `include/nvshader.h`. -/
structure Stats where
  total_size_bytes : Nat
  file_count : Nat
  game_count : Nat
  dxvk_size : Nat
  vkd3d_size : Nat
  nvidia_size : Nat
  mesa_size : Nat
  fossilize_size : Nat
  oldest_days : Nat
  newest_days : Nat
deriving DecidableEq, Repr

/-- Pre-warm result accumulator, translated from `nvshader_prewarm_result_t`
in `include/nvshader.h`. -/
structure PrewarmResult where
  completed : Nat
  failed : Nat
  skipped : Nat
  total : Nat
deriving DecidableEq, Repr

/-- The all-zero prewarm result an orchestration run starts from. -/
def emptyPrewarm : PrewarmResult := ⟨0, 0, 0, 0⟩

/-- Modelled from the spec: the Registry owned by one context — the in-memory
store of Cache Entries populated by a scan (the Registry implementation is
not in the repository, only its interface `nvshader_ctx_t`). -/
structure Ctx where
  entries : List Entry
deriving DecidableEq, Repr

/-- Total size in bytes of a list of entries. -/
def totalSize (es : List Entry) : Nat := (es.map (fun e => e.size_bytes)).sum

/-- Modelled from the spec: age of an entry in whole days, computed against a
fixed `now` (seconds); "age is always computed relative to now at query
time". -/
def ageDays (now : Nat) (e : Entry) : Nat := (now - e.last_modified) / 86400

/-- Modelled from the spec: the eviction order of `shrink_to_size` — oldest
first by `last_modified`, ties among equal timestamps broken by `path`
ascending. -/
def oldestFirst (a b : Entry) : Prop :=
  a.last_modified < b.last_modified ∨
    (a.last_modified = b.last_modified ∧ a.path ≤ b.path)

instance : DecidableRel oldestFirst := fun a b =>
  inferInstanceAs (Decidable (a.last_modified < b.last_modified ∨
    (a.last_modified = b.last_modified ∧ a.path ≤ b.path)))

instance : IsTotal Entry oldestFirst where
  total a b := by
    rcases Nat.lt_trichotomy a.last_modified b.last_modified with h | h | h
    · exact Or.inl (Or.inl h)
    · rcases le_total a.path b.path with hp | hp
      · exact Or.inl (Or.inr ⟨h, hp⟩)
      · exact Or.inr (Or.inr ⟨h.symm, hp⟩)
    · exact Or.inr (Or.inl h)

instance : IsTrans Entry oldestFirst where
  trans a b c hab hbc := by
    rcases hab with h1 | ⟨h1, p1⟩
    · rcases hbc with h2 | ⟨h2, _⟩
      · exact Or.inl (h1.trans h2)
      · exact Or.inl (h2 ▸ h1)
    · rcases hbc with h2 | ⟨h2, p2⟩
      · exact Or.inl (h1 ▸ h2)
      · exact Or.inr ⟨h1.trans h2, p1.trans p2⟩

/-- Modelled from the spec: the greedy removal loop of `shrink_to_size`
(Eviction Engine, not in the repository): walk the sorted entries carrying
the running total, stop as soon as the running total is within the limit or
the entries are exhausted.  Returns the surviving suffix and the number of
removed entries. -/
def shrinkGo (maxBytes : Nat) : List Entry → Nat → List Entry × Nat
  | [], _ => ([], 0)
  | e :: rest, tot =>
    if tot ≤ maxBytes then (e :: rest, 0)
    else
      let p := shrinkGo maxBytes rest (tot - e.size_bytes)
      (p.1, p.2 + 1)

/-- Modelled from the spec: `nvshader_shrink_to_size` (Eviction Engine, not
in the repository) — "if current total ≤ max_bytes, a no-op returning 0.
Otherwise, sort all entries oldest-first by `last_modified` [ties by `path`
ascending] and remove in that order until either the running total ≤
`max_bytes` or entries are exhausted."  Returns the surviving Registry
content and the removed count. -/
def nvshader_shrink_to_size (es : List Entry) (maxBytes : Nat) : List Entry × Nat :=
  if totalSize es ≤ maxBytes then (es, 0)
  else shrinkGo maxBytes (List.insertionSort oldestFirst es) (totalSize es)

/-- Modelled from the spec: `nvshader_clean_older_than` (Eviction Engine, not
in the repository) — victims are all entries whose age in whole days is
≥ `days`, the victim set being computed up front against a single fixed
`now` and the pre-removal Registry state.  Returns the surviving Registry
content and the removed count. -/
def nvshader_clean_older_than (es : List Entry) (now days : Nat) : List Entry × Nat :=
  ((es.filter fun e => ageDays now e < days),
   (es.filter fun e => days ≤ ageDays now e).length)

/-- Modelled from the spec: one step of the Prewarm Orchestrator's batch loop
(not in the repository) — a non-FOSSILIZE entry in the candidate set is
counted as skipped, not an error; a FOSSILIZE entry is counted completed or
failed according to the replay collaborator's reported exit status (the
`invoke` oracle). -/
def prewarmStep (invoke : Entry → Bool) (acc : PrewarmResult) (e : Entry) : PrewarmResult :=
  if e.cache_type = CacheType.fossilize then
    if invoke e then
      { acc with completed := acc.completed + 1, total := acc.total + 1 }
    else
      { acc with failed := acc.failed + 1, total := acc.total + 1 }
  else
    { acc with skipped := acc.skipped + 1, total := acc.total + 1 }

/-- Modelled from the spec: the Prewarm Orchestrator's batch over a candidate
set (not in the repository) — every selected entry is attempted, the batch
never stops early on a single failure, and the outcomes are accumulated into
one Prewarm Result. -/
def prewarmBatch (invoke : Entry → Bool) (candidates : List Entry) : PrewarmResult :=
  candidates.foldl (prewarmStep invoke) emptyPrewarm

/-- The FOSSILIZE-classified entries of a registry, the candidate set of
`prewarm_all`. -/
def fossilizeEntries (es : List Entry) : List Entry :=
  es.filter fun e => e.cache_type = CacheType.fossilize

/-- The entries associated with one game id, the candidate set of
`prewarm_game` ("lookup-by-game-id may return multiple entries"). -/
def gameEntries (es : List Entry) (gid : String) : List Entry :=
  es.filter fun e => e.game_id = some gid

/-- Modelled from the spec: `nvshader_prewarm_all` (Prewarm Orchestrator, not
in the repository) — returns `NOT_AVAILABLE`, checked before attempting any
invocation, when the replay collaborator is absent (`avail = false`);
otherwise runs the batch over every Fossilize entry. -/
def nvshader_prewarm_all (es : List Entry) (avail : Bool) (invoke : Entry → Bool) :
    ResultCode × PrewarmResult :=
  if avail then
    (ResultCode.success, prewarmBatch invoke (fossilizeEntries es))
  else
    (ResultCode.error_not_available, emptyPrewarm)

/-- Modelled from the spec: `nvshader_prewarm_game` (Prewarm Orchestrator, not
in the repository) — `NOT_AVAILABLE` is checked before attempting any
invocation; `GAME_NOT_FOUND` is returned only when zero entries match
`game_id`, with all counts left at zero; otherwise the batch runs over the
matching entries. -/
def nvshader_prewarm_game (es : List Entry) (avail : Bool) (invoke : Entry → Bool)
    (gid : String) : ResultCode × PrewarmResult :=
  if avail then
    if gameEntries es gid = [] then
      (ResultCode.error_game_not_found, emptyPrewarm)
    else
      (ResultCode.success, prewarmBatch invoke (gameEntries es gid))
  else
    (ResultCode.error_not_available, emptyPrewarm)

/-- Size subtotal of the entries of one cache type. -/
def typeSize (es : List Entry) (t : CacheType) : Nat :=
  totalSize (es.filter fun e => e.cache_type = t)

/-- The resolved, non-empty game ids of a registry (the spec counts games "by
distinct non-empty `game_id`"). -/
def resolvedGameIds (es : List Entry) : List String :=
  (es.filterMap fun e => e.game_id).filter fun s => s ≠ ""

/-- Modelled from the spec: the Aggregator's distinct game count (not in the
repository) — the number of distinct resolved non-empty `game_id` values. -/
def gameCount (es : List Entry) : Nat := (resolvedGameIds es).dedup.length

/-- Modelled from the spec: age in days of the oldest cache (maximum age),
zero when the Registry is empty. -/
def oldestDays (now : Nat) (es : List Entry) : Nat :=
  (es.map fun e => ageDays now e).foldr Nat.max 0

/-- Modelled from the spec: age in days of the newest cache (minimum age),
zero when the Registry is empty. -/
def newestDays (now : Nat) (es : List Entry) : Nat :=
  match es.map fun e => ageDays now e with
  | [] => 0
  | a :: rest => rest.foldr Nat.min a

/-- Modelled from the spec: `nvshader_get_stats` (Aggregator, not in the
repository) — a derived, side-effect-free snapshot: per-type subtotals,
overall total and count, distinct game count, and oldest/newest age in days
relative to `now`. -/
def nvshader_get_stats (now : Nat) (es : List Entry) : Stats where
  total_size_bytes := totalSize es
  file_count := es.length
  game_count := gameCount es
  dxvk_size := typeSize es CacheType.dxvk
  vkd3d_size := typeSize es CacheType.vkd3d
  nvidia_size := typeSize es CacheType.nvidia
  mesa_size := typeSize es CacheType.mesa
  fossilize_size := typeSize es CacheType.fossilize
  oldest_days := oldestDays now es
  newest_days := newestDays now es

/-- Modelled from the spec: `nvshader_validate` (Validator, not in the
repository) — counts the structurally invalid entries (`check e = false`,
which includes unreadable entries) without removing or modifying any entry;
`check` is the per-type structural integrity oracle. -/
def nvshader_validate (check : Entry → Bool) (es : List Entry) : Nat :=
  (es.filter fun e => !check e).length

/-! ### The handle-based public surface

A context handle is `Option Ctx`: `none` models a NULL, never-created or
already-destroyed handle.  Every operation on an invalid handle fails with
the invalid-handle error (`INVALID_HANDLE`, or the `-1` sentinel for the
count-returning operations of the header).  Filesystem input is passed
explicitly: the Scanner's walk result, the fixed `now`, the replay
collaborator's availability and exit statuses, and the Validator's
structural check are oracles. -/

/-- `nvshader_destroy` invalidates the handle; modelled from the spec's
lifecycle ("no further operations on that handle are valid"). -/
def nvshader_destroy (_h : Option Ctx) : Option Ctx := none

/-- Modelled from the spec: `nvshader_scan` — a scan fully replaces the
previous Registry snapshot with the walk's entries; `INVALID_HANDLE` on an
invalid handle. -/
def api_scan (h : Option Ctx) (found : List Entry) : ResultCode × Option Ctx :=
  match h with
  | none => (ResultCode.error_invalid_handle, none)
  | some _ => (ResultCode.success, some ⟨found⟩)

/-- Modelled from the spec: `nvshader_get_stats` at the handle level —
`INVALID_HANDLE` on an invalid handle, otherwise the Aggregator snapshot. -/
def api_get_stats (h : Option Ctx) (now : Nat) : ResultCode × Option Stats :=
  match h with
  | none => (ResultCode.error_invalid_handle, none)
  | some c => (ResultCode.success, some (nvshader_get_stats now c.entries))

/-- Modelled from the spec and the header: `nvshader_get_entry_count` —
number of entries, or `-1` on error. -/
def api_get_entry_count (h : Option Ctx) : Int :=
  match h with
  | none => -1
  | some c => (c.entries.length : Int)

/-- Modelled from the spec: `nvshader_prewarm_available` — `none` models the
invalid-handle failure; otherwise the replay collaborator's independently
queryable availability. -/
def api_prewarm_available (h : Option Ctx) (avail : Bool) : Option Bool :=
  match h with
  | none => none
  | some _ => some avail

/-- Modelled from the spec: `nvshader_prewarm_game` at the handle level; the
orchestrator only reads the Registry, so the handle state is returned
unchanged. -/
def api_prewarm_game (h : Option Ctx) (avail : Bool) (invoke : Entry → Bool)
    (gid : String) : (ResultCode × PrewarmResult) × Option Ctx :=
  match h with
  | none => ((ResultCode.error_invalid_handle, emptyPrewarm), none)
  | some c => (nvshader_prewarm_game c.entries avail invoke gid, some c)

/-- Modelled from the spec: `nvshader_prewarm_all` at the handle level; the
orchestrator only reads the Registry, so the handle state is returned
unchanged. -/
def api_prewarm_all (h : Option Ctx) (avail : Bool) (invoke : Entry → Bool) :
    (ResultCode × PrewarmResult) × Option Ctx :=
  match h with
  | none => ((ResultCode.error_invalid_handle, emptyPrewarm), none)
  | some c => (nvshader_prewarm_all c.entries avail invoke, some c)

/-- Modelled from the spec and the header: `nvshader_clean_older_than` —
number of entries removed, or `-1` on error; the survivors become the new
Registry content. -/
def api_clean_older_than (h : Option Ctx) (now days : Nat) : Int × Option Ctx :=
  match h with
  | none => (-1, none)
  | some c =>
    let p := nvshader_clean_older_than c.entries now days
    ((p.2 : Int), some ⟨p.1⟩)

/-- Modelled from the spec and the header: `nvshader_shrink_to_size` —
number of entries removed, or `-1` on error; the survivors become the new
Registry content. -/
def api_shrink_to_size (h : Option Ctx) (maxBytes : Nat) : Int × Option Ctx :=
  match h with
  | none => (-1, none)
  | some c =>
    let p := nvshader_shrink_to_size c.entries maxBytes
    ((p.2 : Int), some ⟨p.1⟩)

/-- Modelled from the spec and the header: `nvshader_validate` — number of
invalid entries, or `-1` on error; reporting only, the Registry is returned
unchanged. -/
def api_validate (h : Option Ctx) (check : Entry → Bool) : Int × Option Ctx :=
  match h with
  | none => (-1, none)
  | some c => ((nvshader_validate check c.entries : Int), some c)

/-! ### Concrete fixtures

The worked example of the spec's eviction section: three caches of 100
bytes whose ages are 30, 20 and 10 days against `now0`, plus a DXVK entry
for the prewarm scenarios. -/

/-- Fixed "now" (40 days in seconds) for the concrete scenarios. -/
def now0 : Nat := 3456000

/-- Entry A of the spec's shrink example: 100 bytes, 30 days old. -/
def entryA : Entry :=
  ⟨"/a", CacheType.fossilize, 100, none, some "10", 1, true, 864000⟩

/-- Entry B of the spec's shrink example: 100 bytes, 10 days old. -/
def entryB : Entry :=
  ⟨"/b", CacheType.fossilize, 100, none, some "20", 1, true, 2592000⟩

/-- Entry C of the spec's shrink example: 100 bytes, 20 days old. -/
def entryC : Entry :=
  ⟨"/c", CacheType.fossilize, 100, none, some "30", 1, true, 1728000⟩

/-- A DXVK entry for the prewarm skip scenario. -/
def entryD : Entry :=
  ⟨"/d", CacheType.dxvk, 50, none, some "40", 1, false, 2592000⟩

/-- A replay-invocation oracle that fails exactly on `entryB`. -/
def invokeF : Entry → Bool := fun e => decide (e.path ≠ "/b")

/-! ### Helper lemmas -/

theorem totalSize_nil : totalSize [] = 0 := rfl

theorem totalSize_cons (e : Entry) (l : List Entry) :
    totalSize (e :: l) = e.size_bytes + totalSize l := by
  simp [totalSize]

theorem totalSize_perm {l l' : List Entry} (h : l.Perm l') :
    totalSize l = totalSize l' := by
  unfold totalSize
  exact (h.map fun e => e.size_bytes).sum_eq

/-- The greedy loop's survivors are the suffix of the input after the removed
count. -/
theorem shrinkGo_fst_eq_drop (maxBytes : Nat) :
    ∀ (l : List Entry) (tot : Nat),
      (shrinkGo maxBytes l tot).1 = l.drop (shrinkGo maxBytes l tot).2
  | [], _ => rfl
  | e :: rest, tot => by
    by_cases h : tot ≤ maxBytes
    · simp [shrinkGo, h]
    · simpa [shrinkGo, h] using shrinkGo_fst_eq_drop maxBytes rest (tot - e.size_bytes)

/-- The greedy loop removes at most everything. -/
theorem shrinkGo_snd_le_length (maxBytes : Nat) :
    ∀ (l : List Entry) (tot : Nat), (shrinkGo maxBytes l tot).2 ≤ l.length
  | [], _ => Nat.le_refl 0
  | e :: rest, tot => by
    by_cases h : tot ≤ maxBytes
    · simp [shrinkGo, h]
    · simpa [shrinkGo, h] using
        Nat.succ_le_succ (shrinkGo_snd_le_length maxBytes rest (tot - e.size_bytes))

/-- When the running total argument is the true total, the greedy loop's
survivors fit within the limit (trivially so when everything was removed). -/
theorem shrinkGo_totalSize_le (maxBytes : Nat) :
    ∀ (l : List Entry) (tot : Nat), tot = totalSize l →
      totalSize (shrinkGo maxBytes l tot).1 ≤ maxBytes
  | [], _, _ => by simp [shrinkGo, totalSize_nil]
  | e :: rest, tot, htot => by
    by_cases h : tot ≤ maxBytes
    · simp [shrinkGo, h, ← htot]
    · have hrest : tot - e.size_bytes = totalSize rest := by
        rw [htot, totalSize_cons]
        omega
      simpa [shrinkGo, h] using
        shrinkGo_totalSize_le maxBytes rest (tot - e.size_bytes) hrest

/-- The greedy loop stops as soon as the running total is within the limit:
every strictly earlier stopping point would still exceed it. -/
theorem shrinkGo_minimal (maxBytes : Nat) :
    ∀ (l : List Entry) (tot : Nat), tot = totalSize l →
      ∀ m < (shrinkGo maxBytes l tot).2, maxBytes < totalSize (l.drop m)
  | [], _, _ => by simp [shrinkGo]
  | e :: rest, tot, htot => by
    by_cases h : tot ≤ maxBytes
    · simp [shrinkGo, h]
    · intro m hm
      rw [shrinkGo] at hm
      simp only [if_neg h] at hm
      match m with
      | 0 => simpa [← htot] using Nat.lt_of_not_le h
      | m' + 1 =>
        have hrest : tot - e.size_bytes = totalSize rest := by
          rw [htot, totalSize_cons]
          omega
        exact shrinkGo_minimal maxBytes rest (tot - e.size_bytes) hrest m'
          (Nat.lt_of_succ_lt_succ hm)

/-- Closed form of the prewarm batch fold: each counter is the length of its
filter of the candidate set, on top of the starting accumulator. -/
theorem prewarm_foldl_eq (invoke : Entry → Bool) :
    ∀ (cs : List Entry) (acc : PrewarmResult),
      cs.foldl (prewarmStep invoke) acc =
        { completed := acc.completed +
            (cs.filter fun e => decide (e.cache_type = CacheType.fossilize) && invoke e).length,
          failed := acc.failed +
            (cs.filter fun e => decide (e.cache_type = CacheType.fossilize) && !invoke e).length,
          skipped := acc.skipped +
            (cs.filter fun e => !decide (e.cache_type = CacheType.fossilize)).length,
          total := acc.total + cs.length }
  | [], acc => by simp
  | e :: cs, acc => by
    rw [List.foldl_cons, prewarm_foldl_eq invoke cs]
    unfold prewarmStep
    by_cases hf : e.cache_type = CacheType.fossilize
    · by_cases hi : invoke e = true
      · simp [hf, hi, List.filter_cons, PrewarmResult.mk.injEq]
        omega
      · simp [hf, hi, List.filter_cons, PrewarmResult.mk.injEq]
        omega
    · simp [hf, List.filter_cons, PrewarmResult.mk.injEq]
      omega

/-- The batch counters are the filter lengths of the candidate set. -/
theorem prewarmBatch_eq (invoke : Entry → Bool) (cs : List Entry) :
    prewarmBatch invoke cs =
      { completed :=
          (cs.filter fun e => decide (e.cache_type = CacheType.fossilize) && invoke e).length,
        failed :=
          (cs.filter fun e => decide (e.cache_type = CacheType.fossilize) && !invoke e).length,
        skipped := (cs.filter fun e => !decide (e.cache_type = CacheType.fossilize)).length,
        total := cs.length } := by
  unfold prewarmBatch
  rw [prewarm_foldl_eq]
  simp [emptyPrewarm]

/-- The completed/failed/skipped filters partition the candidate set. -/
theorem prewarm_filter_partition (invoke : Entry → Bool) (cs : List Entry) :
    (cs.filter fun e => decide (e.cache_type = CacheType.fossilize) && invoke e).length +
      (cs.filter fun e => decide (e.cache_type = CacheType.fossilize) && !invoke e).length +
      (cs.filter fun e => !decide (e.cache_type = CacheType.fossilize)).length =
      cs.length := by
  induction cs with
  | nil => rfl
  | cons e l ih =>
    by_cases hf : e.cache_type = CacheType.fossilize
    · by_cases hi : invoke e = true
      · simp [List.filter_cons, hf, hi]
        omega
      · simp [List.filter_cons, hf, hi]
        omega
    · simp [List.filter_cons, hf]
      omega

/-- Any prewarm batch satisfies the accounting invariant. -/
theorem prewarmBatch_invariant (invoke : Entry → Bool) (cs : List Entry) :
    (prewarmBatch invoke cs).total =
      (prewarmBatch invoke cs).completed + (prewarmBatch invoke cs).failed +
        (prewarmBatch invoke cs).skipped := by
  rw [prewarmBatch_eq]
  exact (prewarm_filter_partition invoke cs).symm

/-- Per-type subtotal of a cons cell. -/
theorem typeSize_cons (e : Entry) (l : List Entry) (t : CacheType) :
    typeSize (e :: l) t =
      (if e.cache_type = t then e.size_bytes else 0) + typeSize l t := by
  by_cases h : e.cache_type = t
  · simp [typeSize, List.filter_cons, h, totalSize]
  · simp [typeSize, List.filter_cons, h]

/-- The five per-type subtotals partition the overall total. -/
theorem typeSize_partition (es : List Entry) :
    typeSize es CacheType.dxvk + typeSize es CacheType.vkd3d +
      typeSize es CacheType.nvidia + typeSize es CacheType.mesa +
      typeSize es CacheType.fossilize = totalSize es := by
  induction es with
  | nil => rfl
  | cons e l ih =>
    rw [typeSize_cons, typeSize_cons, typeSize_cons, typeSize_cons, typeSize_cons,
      totalSize_cons]
    cases e.cache_type <;> simp <;> omega

/-- The distinct game count never exceeds the entry count. -/
theorem gameCount_le_length (es : List Entry) : gameCount es ≤ es.length := by
  calc (resolvedGameIds es).dedup.length ≤ (resolvedGameIds es).length :=
        (List.dedup_sublist _).length_le
    _ ≤ (es.filterMap fun e => e.game_id).length := List.length_filter_le _ _
    _ ≤ es.length := List.length_filterMap_le _ _

/-- Victimhood (`days ≤ age`) is the Boolean negation of survival
(`age < days`). -/
theorem victim_pred_neg (now days : Nat) (e : Entry) :
    decide (ageDays now e < days) = !decide (days ≤ ageDays now e) := by
  by_cases h : days ≤ ageDays now e
  · simp [h, Nat.not_lt.mpr h]
  · simp [h, Nat.lt_of_not_le h]

/-- Survivors and victims of `clean_older_than` partition the registry. -/
theorem clean_length_partition (es : List Entry) (now days : Nat) :
    (es.filter fun e => ageDays now e < days).length +
      (es.filter fun e => days ≤ ageDays now e).length = es.length := by
  induction es with
  | nil => rfl
  | cons e l ih =>
    by_cases h : days ≤ ageDays now e
    · simp [List.filter_cons, h, Nat.not_lt.mpr h]
      omega
    · simp [List.filter_cons, h, Nat.lt_of_not_le h]
      omega

/-! ### Claims -/

/-- C1: for every registry whose total size exceeds `max_bytes`,
`nvshader_shrink_to_size` removes entries in the order given by sorting all
entries oldest-first by `last_modified` (ties broken by `path` ascending):
the survivors are the suffix of that sorted order past the removed count,
removal stops as soon as the running total is within `max_bytes` (every
earlier stopping point still exceeds it) or all entries are exhausted; in
particular on A(100 bytes, 30 days), B(100 bytes, 10 days), C(100 bytes,
20 days) with `max_bytes = 150` it removes exactly A then C and B
survives. -/
theorem claim_C1 :
    (∀ (es : List Entry) (maxBytes : Nat),
      List.Sorted oldestFirst (List.insertionSort oldestFirst es) ∧
      (List.insertionSort oldestFirst es).Perm es ∧
      (maxBytes < totalSize es →
        (nvshader_shrink_to_size es maxBytes).1 =
          (List.insertionSort oldestFirst es).drop
            (nvshader_shrink_to_size es maxBytes).2 ∧
        totalSize (nvshader_shrink_to_size es maxBytes).1 ≤ maxBytes ∧
        (∀ m < (nvshader_shrink_to_size es maxBytes).2,
          maxBytes < totalSize ((List.insertionSort oldestFirst es).drop m)))) ∧
    (List.insertionSort oldestFirst [entryA, entryB, entryC] =
        [entryA, entryC, entryB] ∧
      nvshader_shrink_to_size [entryA, entryB, entryC] 150 = ([entryB], 2)) := by
  constructor
  · intro es maxBytes
    have hperm := List.perm_insertionSort oldestFirst es
    refine ⟨List.sorted_insertionSort oldestFirst es, hperm, ?_⟩
    intro hlt
    have hnot : ¬ totalSize es ≤ maxBytes := Nat.not_le.mpr hlt
    have htot : totalSize es = totalSize (List.insertionSort oldestFirst es) :=
      (totalSize_perm hperm).symm
    simp only [nvshader_shrink_to_size, if_neg hnot]
    exact ⟨shrinkGo_fst_eq_drop maxBytes _ _,
      shrinkGo_totalSize_le maxBytes _ _ htot,
      shrinkGo_minimal maxBytes _ _ htot⟩
  · exact ⟨by decide, by decide⟩

/-- Witness for C1: on the spec's A/B/C example with `max_bytes = 150`,
the hypothesis "total exceeds the limit" holds and the survivors fit
within the limit. -/
theorem claim_C1_witness :
    150 < totalSize [entryA, entryB, entryC] ∧
    totalSize (nvshader_shrink_to_size [entryA, entryB, entryC] 150).1 ≤ 150 :=
  ⟨by decide, ((claim_C1.1 [entryA, entryB, entryC] 150).2.2 (by decide)).2.1⟩

/-- C6: `nvshader_shrink_to_size` is idempotent — if the current total is
already within `x` the call is a no-op returning 0, after any call the total
is within `x` (removal can always achieve it, every entry being removable),
and an immediately repeated call with the same `x` removes 0 entries and
leaves the registry unchanged. -/
theorem claim_C6 :
    ∀ (es : List Entry) (x : Nat),
      (totalSize es ≤ x → nvshader_shrink_to_size es x = (es, 0)) ∧
      totalSize (nvshader_shrink_to_size es x).1 ≤ x ∧
      nvshader_shrink_to_size (nvshader_shrink_to_size es x).1 x =
        ((nvshader_shrink_to_size es x).1, 0) := by
  intro es x
  have hnoop : ∀ (l : List Entry), totalSize l ≤ x →
      nvshader_shrink_to_size l x = (l, 0) := by
    intro l hl
    simp [nvshader_shrink_to_size, hl]
  have hpost : totalSize (nvshader_shrink_to_size es x).1 ≤ x := by
    by_cases h : totalSize es ≤ x
    · rw [hnoop es h]
      exact h
    · have hperm := List.perm_insertionSort oldestFirst es
      have htot : totalSize es = totalSize (List.insertionSort oldestFirst es) :=
        (totalSize_perm hperm).symm
      simpa [nvshader_shrink_to_size, h] using
        shrinkGo_totalSize_le x (List.insertionSort oldestFirst es) (totalSize es) htot
  exact ⟨hnoop es, hpost, hnoop _ hpost⟩

/-- Witness for C6: the A/B/C registry totals 300 bytes, so shrinking to 400
is a no-op returning 0. -/
theorem claim_C6_witness :
    totalSize [entryA, entryB, entryC] ≤ 400 ∧
    nvshader_shrink_to_size [entryA, entryB, entryC] 400 =
      ([entryA, entryB, entryC], 0) :=
  ⟨by decide, (claim_C6 [entryA, entryB, entryC] 400).1 (by decide)⟩

/-- C2: for every registry and days threshold, `nvshader_clean_older_than`
removes exactly the entries whose age in whole days is ≥ `days`, the victim
set being computed against the single fixed `now` and the pre-removal
registry state: the survivors are exactly the entries aged < `days`, the
returned count is the number of removed victims (survivors and victims
partition the registry), and an immediately repeated call with the same
`days` (same fixed `now`) removes 0 entries and leaves the registry
unchanged. -/
theorem claim_C2 :
    ∀ (es : List Entry) (now days : Nat),
      (∀ e, e ∈ (nvshader_clean_older_than es now days).1 ↔
        e ∈ es ∧ ageDays now e < days) ∧
      (nvshader_clean_older_than es now days).2 =
        (es.filter fun e => days ≤ ageDays now e).length ∧
      (nvshader_clean_older_than es now days).1.length +
        (nvshader_clean_older_than es now days).2 = es.length ∧
      nvshader_clean_older_than (nvshader_clean_older_than es now days).1 now days =
        ((nvshader_clean_older_than es now days).1, 0) := by
  intro es now days
  have hdef : nvshader_clean_older_than es now days =
      ((es.filter fun e => ageDays now e < days),
       (es.filter fun e => days ≤ ageDays now e).length) := rfl
  have hsurv : ∀ e ∈ (nvshader_clean_older_than es now days).1,
      ageDays now e < days := by
    intro e he
    rw [hdef] at he
    simpa using (List.mem_filter.mp he).2
  refine ⟨?_, rfl, clean_length_partition es now days, ?_⟩
  · intro e
    rw [hdef]
    simp [List.mem_filter]
  · have h1 : ((nvshader_clean_older_than es now days).1.filter
        fun e => ageDays now e < days) = (nvshader_clean_older_than es now days).1 :=
      List.filter_eq_self.mpr fun e he => by simpa using hsurv e he
    have h2 : ((nvshader_clean_older_than es now days).1.filter
        fun e => days ≤ ageDays now e) = [] := by
      rw [List.filter_eq_nil_iff]
      intro e he
      simpa [Nat.not_le] using hsurv e he
    show ((nvshader_clean_older_than es now days).1.filter
        fun e => ageDays now e < days,
      ((nvshader_clean_older_than es now days).1.filter
        fun e => days ≤ ageDays now e).length) = _
    rw [h1, h2]
    rfl

/-- Witness for C2: on the A/B/C registry with ages 30/10/20 days and a
15-day threshold against `now0`, B (aged 10 days) is in the registry, is
younger than the threshold, and survives the clean. -/
theorem claim_C2_witness :
    (entryB ∈ [entryA, entryB, entryC] ∧ ageDays now0 entryB < 15) ∧
    entryB ∈ (nvshader_clean_older_than [entryA, entryB, entryC] now0 15).1 :=
  ⟨⟨by decide, by decide⟩,
    ((claim_C2 [entryA, entryB, entryC] now0 15).1 entryB).mpr ⟨by decide, by decide⟩⟩

/-- C3: after every prewarm run — `nvshader_prewarm_game` or
`nvshader_prewarm_all`, whatever the registry, availability, replay
outcomes and game id — the returned result satisfies
`total = completed + failed + skipped`. -/
theorem claim_C3 :
    ∀ (es : List Entry) (avail : Bool) (invoke : Entry → Bool) (gid : String),
      ((nvshader_prewarm_game es avail invoke gid).2.total =
        (nvshader_prewarm_game es avail invoke gid).2.completed +
          (nvshader_prewarm_game es avail invoke gid).2.failed +
          (nvshader_prewarm_game es avail invoke gid).2.skipped) ∧
      ((nvshader_prewarm_all es avail invoke).2.total =
        (nvshader_prewarm_all es avail invoke).2.completed +
          (nvshader_prewarm_all es avail invoke).2.failed +
          (nvshader_prewarm_all es avail invoke).2.skipped) := by
  intro es avail invoke gid
  constructor
  · unfold nvshader_prewarm_game
    cases avail
    · simp [emptyPrewarm]
    · by_cases hg : gameEntries es gid = []
      · simp [hg, emptyPrewarm]
      · simp only [if_pos rfl, if_neg hg]
        exact prewarmBatch_invariant invoke (gameEntries es gid)
  · unfold nvshader_prewarm_all
    cases avail
    · simp [emptyPrewarm]
    · simp only [if_pos rfl]
      exact prewarmBatch_invariant invoke (fossilizeEntries es)

/-- Witness for C3: concrete prewarm-all run over the A/B/C/D registry with
the oracle that fails on B. -/
theorem claim_C3_witness :
    (nvshader_prewarm_all [entryA, entryB, entryC, entryD] true invokeF).2.total =
      (nvshader_prewarm_all [entryA, entryB, entryC, entryD] true invokeF).2.completed +
        (nvshader_prewarm_all [entryA, entryB, entryC, entryD] true invokeF).2.failed +
        (nvshader_prewarm_all [entryA, entryB, entryC, entryD] true invokeF).2.skipped :=
  (claim_C3 [entryA, entryB, entryC, entryD] true invokeF "10").2

/-- C7: every candidate entry of a prewarm batch is attempted (the total
equals the candidate count — the batch never stops early on a failure), each
non-FOSSILIZE candidate is counted as skipped rather than treated as an
error, and each FOSSILIZE candidate is counted completed or failed according
to the replay tool's exit status; concretely, the three Fossilize entries
A/B/C with the invocation failing on B yield completed=2, failed=1,
skipped=0, total=3, and an erroneously included DXVK entry D is counted as
skipped. -/
theorem claim_C7 :
    (∀ (invoke : Entry → Bool) (cs : List Entry),
      (prewarmBatch invoke cs).total = cs.length ∧
      (prewarmBatch invoke cs).skipped =
        (cs.filter fun e => !decide (e.cache_type = CacheType.fossilize)).length ∧
      (prewarmBatch invoke cs).completed =
        (cs.filter fun e =>
          decide (e.cache_type = CacheType.fossilize) && invoke e).length ∧
      (prewarmBatch invoke cs).failed =
        (cs.filter fun e =>
          decide (e.cache_type = CacheType.fossilize) && !invoke e).length) ∧
    (prewarmBatch invokeF [entryA, entryB, entryC] =
        { completed := 2, failed := 1, skipped := 0, total := 3 } ∧
      prewarmBatch invokeF [entryA, entryB, entryC, entryD] =
        { completed := 2, failed := 1, skipped := 1, total := 4 }) := by
  refine ⟨?_, by decide, by decide⟩
  intro invoke cs
  rw [prewarmBatch_eq]
  exact ⟨rfl, rfl, rfl, rfl⟩

/-- Witness for C7: the general batch accounting applied to the concrete
A/B/C/D candidate set — all four candidates are attempted. -/
theorem claim_C7_witness :
    (prewarmBatch invokeF [entryA, entryB, entryC, entryD]).total = 4 := by
  have h := (claim_C7.1 invokeF [entryA, entryB, entryC, entryD]).1
  simpa using h

/-- C8: with the replay tool available, `nvshader_prewarm_game` returns
`GAME_NOT_FOUND` exactly when zero entries match the game id, and in that
case all result counts are zero; the registry is left unchanged by every
prewarm-game call; and when the replay tool is absent the call returns
`NOT_AVAILABLE` with zero counts, decided before any invocation is
attempted — the outcome is independent of the invocation oracle. -/
theorem claim_C8 :
    ∀ (c : Ctx) (invoke invoke2 : Entry → Bool) (gid : String) (avail : Bool),
      ((nvshader_prewarm_game c.entries true invoke gid).1 =
          ResultCode.error_game_not_found ↔ gameEntries c.entries gid = []) ∧
      (gameEntries c.entries gid = [] →
        nvshader_prewarm_game c.entries true invoke gid =
          (ResultCode.error_game_not_found, emptyPrewarm)) ∧
      (api_prewarm_game (some c) avail invoke gid).2 = some c ∧
      nvshader_prewarm_game c.entries false invoke gid =
        (ResultCode.error_not_available, emptyPrewarm) ∧
      nvshader_prewarm_game c.entries false invoke gid =
        nvshader_prewarm_game c.entries false invoke2 gid := by
  intro c invoke invoke2 gid avail
  refine ⟨?_, ?_, rfl, rfl, rfl⟩
  · unfold nvshader_prewarm_game
    by_cases hg : gameEntries c.entries gid = []
    · simp [hg]
    · simp [hg]
  · intro hg
    unfold nvshader_prewarm_game
    simp [hg]

/-- Witness for C8: `prewarm_game "nonexistent"` on a registry holding only
entry A (game id "10") matches zero entries and returns `GAME_NOT_FOUND`
with all counts zero. -/
theorem claim_C8_witness :
    gameEntries [entryA] "nonexistent" = [] ∧
    nvshader_prewarm_game [entryA] true invokeF "nonexistent" =
      (ResultCode.error_game_not_found, emptyPrewarm) :=
  ⟨by decide,
    (claim_C8 ⟨[entryA]⟩ invokeF invokeF "nonexistent" true).2.1 (by decide)⟩

/-- C4: for every registry and query time, the statistics of
`nvshader_get_stats` satisfy: the five per-type size subtotals sum to
`total_size_bytes`; `game_count` (distinct non-empty game ids) is at most
`file_count` (the entry count); and the oldest/newest ages are zero when
the registry is empty. -/
theorem claim_C4 :
    ∀ (now : Nat) (es : List Entry),
      (nvshader_get_stats now es).dxvk_size + (nvshader_get_stats now es).vkd3d_size +
          (nvshader_get_stats now es).nvidia_size + (nvshader_get_stats now es).mesa_size +
          (nvshader_get_stats now es).fossilize_size =
        (nvshader_get_stats now es).total_size_bytes ∧
      (nvshader_get_stats now es).game_count ≤ (nvshader_get_stats now es).file_count ∧
      (es = [] → (nvshader_get_stats now es).oldest_days = 0 ∧
        (nvshader_get_stats now es).newest_days = 0) := by
  intro now es
  refine ⟨typeSize_partition es, gameCount_le_length es, ?_⟩
  rintro rfl
  exact ⟨rfl, rfl⟩

/-- Witness for C4: on the empty registry the per-type subtotals sum to the
total and the oldest/newest ages are both zero. -/
theorem claim_C4_witness :
    (nvshader_get_stats now0 []).oldest_days = 0 ∧
    (nvshader_get_stats now0 []).newest_days = 0 :=
  (claim_C4 now0 []).2.2 rfl

/-- C9: for every scanned context, `nvshader_validate` returns the count of
structurally invalid entries (those failing the structural check, which
includes unreadable entries) while leaving the registry unchanged — no entry
is removed or modified; it never fails on a valid handle (the result is a
non-negative count, not an error), and an entry whose structural check fails
is counted as invalid yet remains in the post-call registry. -/
theorem claim_C9 :
    ∀ (c : Ctx) (check : Entry → Bool),
      (api_validate (some c) check).2 = some c ∧
      (api_validate (some c) check).1 =
        (((c.entries.filter fun e => !check e).length : Nat) : Int) ∧
      0 ≤ (api_validate (some c) check).1 ∧
      (∀ e ∈ c.entries, check e = false →
        ∃ c2, (api_validate (some c) check).2 = some c2 ∧ e ∈ c2.entries) := by
  intro c check
  refine ⟨rfl, rfl, Int.natCast_nonneg _, ?_⟩
  intro e he _
  exact ⟨c, rfl, he⟩

/-- Witness for C9: a registry holding entry A whose backing directory was
deleted after the scan (the structural check rejects everything) — A is
reported invalid yet survives in the registry. -/
theorem claim_C9_witness :
    entryA ∈ ([entryA] : List Entry) ∧
    ∃ c2, (api_validate (some ⟨[entryA]⟩) fun _ => false).2 = some c2 ∧
      entryA ∈ c2.entries :=
  ⟨by decide,
    (claim_C9 ⟨[entryA]⟩ fun _ => false).2.2.2 entryA (by decide) rfl⟩

/-- C5: destroying any handle yields the invalid handle, and every public
operation on an invalid (destroyed or NULL) handle fails with the
invalid-handle error — `INVALID_HANDLE` (whose numeric value is -1 in the
header) for result-returning operations, the -1 sentinel for count-returning
operations, and the failure marker for the availability query — with no
other effect, rather than undefined behavior. -/
theorem claim_C5 :
    ∀ (h : Option Ctx) (found : List Entry) (now days maxBytes : Nat)
      (avail : Bool) (invoke : Entry → Bool) (gid : String) (check : Entry → Bool),
      nvshader_destroy h = none ∧
      api_scan none found = (ResultCode.error_invalid_handle, none) ∧
      api_get_stats none now = (ResultCode.error_invalid_handle, none) ∧
      api_get_entry_count none = -1 ∧
      api_prewarm_available none avail = none ∧
      api_prewarm_game none avail invoke gid =
        ((ResultCode.error_invalid_handle, emptyPrewarm), none) ∧
      api_prewarm_all none avail invoke =
        ((ResultCode.error_invalid_handle, emptyPrewarm), none) ∧
      api_clean_older_than none now days = (-1, none) ∧
      api_shrink_to_size none maxBytes = (-1, none) ∧
      api_validate none check = (-1, none) ∧
      resultCode ResultCode.error_invalid_handle = -1 := by
  intro h found now days maxBytes avail invoke gid check
  exact ⟨rfl, rfl, rfl, rfl, rfl, rfl, rfl, rfl, rfl, rfl, rfl⟩

/-- Witness for C5: the concrete sequence — destroy a live context, then
query the entry count on the destroyed handle — fails with the -1
invalid-handle sentinel. -/
theorem claim_C5_witness :
    nvshader_destroy (some ⟨[entryA]⟩) = none ∧
    api_get_entry_count none = -1 :=
  ⟨(claim_C5 (some ⟨[entryA]⟩) [] now0 30 150 true invokeF "10" fun _ => true).1,
    (claim_C5 none [] now0 30 150 true invokeF "10" fun _ => true).2.2.2.1⟩

/-- C10: every count-returning operation of the public surface
(`nvshader_get_entry_count`, `nvshader_clean_older_than`,
`nvshader_shrink_to_size`, `nvshader_validate`) returns -1 exactly when the
handle is invalid, and a non-negative count on every valid handle — the -1
sentinel convention of the header, distinct from the `nvshader_result_t`
enum. -/
theorem claim_C10 :
    ∀ (h : Option Ctx) (now days maxBytes : Nat) (check : Entry → Bool),
      (api_get_entry_count h = -1 ↔ h = none) ∧
      ((api_clean_older_than h now days).1 = -1 ↔ h = none) ∧
      ((api_shrink_to_size h maxBytes).1 = -1 ↔ h = none) ∧
      ((api_validate h check).1 = -1 ↔ h = none) ∧
      (∀ c, h = some c →
        0 ≤ api_get_entry_count h ∧
        0 ≤ (api_clean_older_than h now days).1 ∧
        0 ≤ (api_shrink_to_size h maxBytes).1 ∧
        0 ≤ (api_validate h check).1) := by
  intro h now days maxBytes check
  cases h with
  | none =>
    refine ⟨iff_of_true rfl rfl, iff_of_true rfl rfl, iff_of_true rfl rfl,
      iff_of_true rfl rfl, ?_⟩
    intro c hc
    cases hc
  | some c =>
    refine ⟨?_, ?_, ?_, ?_, ?_⟩
    · simp only [api_get_entry_count]
      constructor
      · intro h'
        omega
      · intro h'
        cases h'
    · simp only [api_clean_older_than]
      constructor
      · intro h'
        omega
      · intro h'
        cases h'
    · simp only [api_shrink_to_size]
      constructor
      · intro h'
        omega
      · intro h'
        cases h'
    · simp only [api_validate]
      constructor
      · intro h'
        omega
      · intro h'
        cases h'
    · intro c2 hc
      obtain rfl := Option.some.inj hc
      exact ⟨Int.natCast_nonneg _, Int.natCast_nonneg _, Int.natCast_nonneg _,
        Int.natCast_nonneg _⟩

/-- Witness for C10: on a live context holding entry A, all four
count-returning operations report non-negative counts. -/
theorem claim_C10_witness :
    0 ≤ api_get_entry_count (some ⟨[entryA]⟩) ∧
    0 ≤ (api_clean_older_than (some ⟨[entryA]⟩) now0 15).1 ∧
    0 ≤ (api_shrink_to_size (some ⟨[entryA]⟩) 150).1 ∧
    0 ≤ (api_validate (some ⟨[entryA]⟩) fun _ => true).1 :=
  (claim_C10 (some ⟨[entryA]⟩) now0 15 150 fun _ => true).2.2.2.2 ⟨[entryA]⟩ rfl

end NvShader
